import Mathlib

set_option maxRecDepth 4000

/-!
Verification of the hybrid claim-verification decision pipeline of the
Fake-News-Bot repository.

The development shallowly embeds the Python source:

* `findMatchingClaims` embeds `TextAnalyzer.find_matching_claims`
  (src/backend/analyzers/text_analyzer.py).
* `isDuplicate` embeds `Deduplicator.is_duplicate`
  (src/backend/scrapers/deduplicator.py).
* `generateWithFallback` and `analyzeTextClaim` embed
  `GeminiAnalyzer._generate_with_fallback` and
  `GeminiAnalyzer.analyze_text_claim` (src/backend/analyzers/gemini_analyzer.py).
* `analyzeTextEndpoint` embeds the `/analyze/text` route `analyze_text`
  (src/backend/api/app.py).
* `saveFactChecksToDb` embeds `save_fact_checks_to_db`
  (src/backend/scrapers/run_all_scrapers.py).

External capabilities (the sentence-transformer encoder, cosine similarity,
language detection, JSON decoding, the response templating and the Gemini
service itself) are modelled as explicit function parameters, so every theorem
quantifies over them; similarity scores are rationals.
-/

/-- Embeds a row of the `fact_checks` table, with the fields passed to the
`FactCheck` constructor in app.py and run_all_scrapers.py.  The embedding
vector is a list of rationals; nullable columns are `Option`. -/
structure FactCheckRec where
  id : Nat
  claim : String
  verdict : String
  explanation : String
  source : String
  source_url : Option String
  original_url : Option String
  published_date : Option Nat
  scraped_date : Nat
  language : String
  keywords : Option String
  embedding : Option (List ℚ)
  source_type : String
  confidence_score : Option ℚ
  gemini_generated : Bool
  red_flags : Option (List String)
deriving Repr, DecidableEq

/-- Embeds the `matched_fact_check` dict built in `analyze_text`: either the
`to_dict()` view of a database record or the ad hoc dict built from a Gemini
result (whose `id` key starts out `None`).  Only the keys later read by the
response formatting and by the writeback are modelled. -/
structure MatchedFC where
  id : Option Nat
  claim : String
  verdict : String
  explanation : String
  source : String
  source_url : Option String
deriving Repr, DecidableEq

/-- Models Python string slicing `s[:n]`: the first `n` code points. -/
def pyTake (s : String) (n : Nat) : String :=
  String.mk (s.data.take n)

/-- Default of `SIMILARITY_THRESHOLD` in `TextAnalyzer.__init__`
(text_analyzer.py line 40): 0.75. -/
def matchThresholdDefault : ℚ := 3 / 4

/-- Default of the `similarity_threshold` parameter of
`Deduplicator.__init__` (deduplicator.py line 20): 0.85. -/
def dedupThresholdDefault : ℚ := 85 / 100

/-- Default of `GEMINI_CONFIDENCE_THRESHOLD` read in app.py line 174: 0.6. -/
def confThresholdDefault : ℚ := 3 / 5

/-- Default of `GEMINI_LEARNING_THRESHOLD` read in app.py line 192: 0.9. -/
def learnThresholdDefault : ℚ := 9 / 10

/-! ### Similarity Index: `TextAnalyzer.find_matching_claims`

The Python loop appends `(fact_check, score)` for every fact-check whose
`claim` key is non-empty and whose cosine score against the query reaches
`self.similarity_threshold`, then sorts the pairs by score descending with
`matches.sort(key=lambda x: x[1], reverse=True)` — a stable sort.  The
encoder plus `pytorch_cos_sim` composite is the parameter
`sim : String → String → ℚ`. -/

/-- Embeds the accumulation loop of `find_matching_claims`: skip records with
an empty `claim`, score the rest, keep those at or above the threshold. -/
def scoredMatches (sim : String → String → ℚ) (threshold : ℚ)
    (queryText : String) (factChecks : List FactCheckRec) :
    List (FactCheckRec × ℚ) :=
  factChecks.filterMap fun fc =>
    if fc.claim = "" then none
    else
      let score := sim queryText fc.claim
      if threshold ≤ score then some (fc, score) else none

/-- Stable insertion of a scored pair into a list, placing it before the
first element whose score is at most its own. -/
def insertByScore (x : FactCheckRec × ℚ) :
    List (FactCheckRec × ℚ) → List (FactCheckRec × ℚ)
  | [] => [x]
  | y :: ys => if y.2 ≤ x.2 then x :: y :: ys else y :: insertByScore x ys

/-- Stable sort by score descending, the semantics of Python
`list.sort(key=lambda x: x[1], reverse=True)`. -/
def sortByScoreDesc (l : List (FactCheckRec × ℚ)) : List (FactCheckRec × ℚ) :=
  l.foldr insertByScore []

/-- Embeds `TextAnalyzer.find_matching_claims` (text_analyzer.py lines
148-167). -/
def findMatchingClaims (sim : String → String → ℚ) (threshold : ℚ)
    (queryText : String) (factChecks : List FactCheckRec) :
    List (FactCheckRec × ℚ) :=
  sortByScoreDesc (scoredMatches sim threshold queryText factChecks)

/-! ### Deduplication Engine: `Deduplicator.is_duplicate`

The Python method fetches all existing claims, returns `None` on an empty
corpus, embeds the candidate, then walks the corpus in order; the first record
with a truthy `embedding` whose cosine similarity reaches
`self.similarity_threshold` is reported as the duplicate.  A record whose
`embedding` is `None` or the empty list is skipped (Python truthiness).
The parameters `cos` and `encode` stand for `util.cos_sim` and
`self.model.encode`. -/

/-- Embeds the duplicate report dict returned by `is_duplicate`
(deduplicator.py lines 82-89); the `is_duplicate: True` key is implicit. -/
structure DupInfo where
  matchedClaimId : Nat
  matchedClaim : String
  similarity : ℚ
  existingSource : String
  existingVerdict : String
deriving Repr, DecidableEq

/-- Embeds the comparison loop of `is_duplicate` (deduplicator.py lines
76-91). -/
def scanDup (cos : List ℚ → List ℚ → ℚ) (threshold : ℚ) (newEmb : List ℚ) :
    List FactCheckRec → Option DupInfo
  | [] => none
  | fc :: rest =>
    match fc.embedding with
    | some (x :: xs) =>
        let s := cos newEmb (x :: xs)
        if threshold ≤ s then
          some ⟨fc.id, fc.claim, s, fc.source, fc.verdict⟩
        else scanDup cos threshold newEmb rest
    | _ => scanDup cos threshold newEmb rest

/-- Embeds `Deduplicator.is_duplicate` (deduplicator.py lines 54-91). -/
def isDuplicate (cos : List ℚ → List ℚ → ℚ) (encode : String → List ℚ)
    (threshold : ℚ) (newClaim : String) (existing : List FactCheckRec) :
    Option DupInfo :=
  if existing.isEmpty then none
  else scanDup cos threshold (encode newClaim) existing

/-! ### Reasoner: `GeminiAnalyzer._generate_with_fallback` and
`GeminiAnalyzer.analyze_text_claim` -/

/-- Model of one `model.generate_content` attempt as observed by
`_generate_with_fallback`: a usable response, a safety-blocked response
(no candidates or empty parts), or a raised exception with its message. -/
inductive AttemptOutcome where
  | ok (respText : String)
  | blocked
  | exn (msg : String)
deriving Repr, DecidableEq

/-- Result of `_generate_with_fallback`: either a response paired with the
model that produced it, or a propagated exception message. -/
inductive FallbackResult where
  | success (respText modelName : String)
  | raised (msg : String)
deriving Repr, DecidableEq

/-- Substring test on character lists, the semantics of the Python
`in` operator on strings. -/
def hasSubstr (needle : List Char) : List Char → Bool
  | [] => needle.isEmpty
  | c :: rest => needle.isPrefixOf (c :: rest) || hasSubstr needle rest

/-- Character-wise lowercasing, the semantics of Python `str.lower` for the
ASCII messages involved. -/
def lowerStr (s : String) : String :=
  String.mk (s.data.map Char.toLower)

/-- Embeds the rate-limit classification of gemini_analyzer.py line 86:
`'429' in error_str or 'quota' in error_str.lower() or
'rate' in error_str.lower()`. -/
def isRateLimitError (msg : String) : Bool :=
  hasSubstr "429".data msg.data || hasSubstr "quota".data (lowerStr msg).data
    || hasSubstr "rate".data (lowerStr msg).data

/-- The ordered model list of `GeminiAnalyzer.__init__`
(gemini_analyzer.py lines 33-36). -/
def geminiModels : List String := ["gemini-2.5-pro", "gemini-2.0-flash"]

/-- Embeds `_generate_with_fallback` (gemini_analyzer.py lines 56-98):
walk the model list; a usable response returns with the model name; a
safety-blocked response falls through to the next model; an exception
classified as a rate limit records it as `last_error` and falls through;
any other exception is re-raised at once.  After the loop the recorded
`last_error` is raised, or the all-blocked exception if none was recorded. -/
def generateWithFallback (behave : String → AttemptOutcome) :
    List String → Option String → FallbackResult
  | [], lastError =>
      match lastError with
      | some e => .raised e
      | none => .raised "All models blocked the response due to safety filters"
  | m :: rest, lastError =>
      match behave m with
      | .ok r => .success r m
      | .blocked => generateWithFallback behave rest lastError
      | .exn msg =>
          if isRateLimitError msg then
            generateWithFallback behave rest (some msg)
          else .raised msg

/-- Fields of a successfully JSON-decoded Gemini reply; every key is
optional because `json.loads` accepts any object shape. -/
structure ParsedGemini where
  verdict : Option String
  confidence : Option ℚ
  explanation : Option String
  reasoning : Option String
deriving Repr, DecidableEq

/-- Embeds the result dict of `analyze_text_claim`: the decoded fields plus
the metadata keys the method adds or the error keys of its handlers.  The
`source` key is the constant string gemini on every path and is omitted. -/
structure GeminiDict where
  verdict : Option String
  confidence : Option ℚ
  explanation : Option String
  reasoning : Option String
  error : Option String
  modelUsed : Option String
  rawResponse : Option String
deriving Repr, DecidableEq

/-- Embeds `GeminiAnalyzer.analyze_text_claim` (gemini_analyzer.py lines
100-184).  The parameter `parse` stands for the composite of the
code-fence stripping, the brace slicing of lines 144-152 and `json.loads`;
`parse r = none` is the `json.JSONDecodeError` path.  The branches return,
in order: the disabled-analyzer dict, the generic exception-handler dict
for an error propagated out of `_generate_with_fallback`, the degraded
malformed-response dict carrying the raw payload, and the decoded result
with the added model metadata. -/
def analyzeTextClaim (parse : String → Option ParsedGemini) (enabled : Bool)
    (fb : FallbackResult) : GeminiDict :=
  if !enabled then
    ⟨some "unverified", some 0, some "Gemini API not configured", none,
      some "API key not found", none, none⟩
  else
    match fb with
    | .raised msg =>
        ⟨some "unverified", some 0, some "API error occurred", none,
          some msg, none, none⟩
    | .success resp modelUsed =>
        match parse resp with
        | none =>
            ⟨some "unverified", some 0,
              some "Could not analyze claim due to malformed AI response.",
              none, some "JSON parse error", none, some resp⟩
        | some p =>
            ⟨p.verdict, p.confidence, p.explanation, p.reasoning,
              none, some modelUsed, none⟩

/-! ### Decision Pipeline: the `/analyze/text` route `analyze_text`

The route detects the query language, loads the fact-checks whose language
is the detected one or `en`, runs `find_matching_claims`, and takes the first
match if any; otherwise, when the Gemini analyzer is enabled and the
`GEMINI_ENABLED` env flag is on, it calls `analyze_text_claim` and applies the
confidence gate and then the learning gate, persisting a new `FactCheck` row
inside a try/except whose handler only logs and rolls back.  Response
templating (`response_generator`) is the parameter `vr`, with the argument
order verdict, language, explanation, source URL, confidence of
`get_verdict_response`; request validation, the `UserQuery` log and the JSON
serialisation are outside the modelled fragment. -/

/-- Configuration of the route: the two env thresholds, the analyzer match
threshold, and the two flags of the `elif` guard on app.py line 170. -/
structure PipelineCfg where
  matchThreshold : ℚ
  confThreshold : ℚ
  learnThreshold : ℚ
  geminiEnabled : Bool
  geminiEnvOn : Bool
deriving Repr, DecidableEq

/-- The default configuration with every env variable unset and the
analyzer enabled. -/
def defaultCfg : PipelineCfg :=
  ⟨matchThresholdDefault, confThresholdDefault, learnThresholdDefault,
    true, true⟩

/-- Embeds the corpus query of app.py lines 147-149:
`FactCheck.language.in_([detected_language, 'en'])`. -/
def languageCorpus (detected : String) (corpus : List FactCheckRec) :
    List FactCheckRec :=
  corpus.filter fun r => r.language == detected || r.language == "en"

/-- The `to_dict()` view of a database record as used for
`matched_fact_check`. -/
def toMatched (r : FactCheckRec) : MatchedFC :=
  ⟨some r.id, r.claim, r.verdict, r.explanation, r.source, r.source_url⟩

/-- Embeds `response_generator.format_fact_check_response`
(response_generator.py lines 146-158): project the verdict, explanation and
source URL out of the fact-check dict and delegate to
`get_verdict_response`, which is the parameter `vr`. -/
def formatFactCheckResponse
    (vr : String → String → Option String → Option String → Option ℚ → String)
    (factCheck : MatchedFC) (language : String) (confidence : ℚ) : String :=
  vr factCheck.verdict language (some factCheck.explanation)
    factCheck.source_url (some confidence)

/-- Outcome of one `/analyze/text` request: the JSON payload fields that the
claims mention, plus the records inserted by the learning writeback and
bookkeeping flags (`geminiCalled` records whether the Reasoner tier ran,
`writebackFailed` records the logged-and-rolled-back persistence failure). -/
structure AnalyzeOutcome where
  verdict : String
  confidence : ℚ
  language : String
  responseText : String
  matched : Option MatchedFC
  analysisSource : String
  geminiCalled : Bool
  tier1Matches : List (FactCheckRec × ℚ)
  inserted : List FactCheckRec
  writebackFailed : Bool
deriving DecidableEq

/-- Embeds the text-analysis route `analyze_text` (app.py lines 125-272).
External inputs: `sim` and `encode` for the sentence model, `detectLang` for
`langdetect`, `vr` for the response generator, `parse`/`fb` for the Gemini
call of this request (consumed through `analyzeTextClaim`), `persistOk` for
the success of `session.commit()` on the writeback insert, `newId` for the
database-assigned id of the new row and `nowTime` for `datetime.utcnow()`.
The initial state of app.py lines 157-161 is verdict `unverified`,
confidence 0, no match, source `database`. -/
def analyzeTextEndpoint (sim : String → String → ℚ)
    (encode : String → List ℚ) (detectLang : String → String)
    (vr : String → String → Option String → Option String → Option ℚ → String)
    (parse : String → Option ParsedGemini) (fb : FallbackResult)
    (cfg : PipelineCfg) (corpus : List FactCheckRec) (persistOk : Bool)
    (newId : Nat) (nowTime : Nat) (text : String) : AnalyzeOutcome :=
  let detected := detectLang text
  let factChecks := languageCorpus detected corpus
  let matchList := findMatchingClaims sim cfg.matchThreshold text factChecks
  match matchList with
  | m :: _ =>
      let matched := toMatched m.1
      { verdict := m.1.verdict, confidence := m.2, language := detected,
        responseText := formatFactCheckResponse vr matched detected m.2,
        matched := some matched, analysisSource := "database",
        geminiCalled := false, tier1Matches := matchList, inserted := [],
        writebackFailed := false }
  | [] =>
      if cfg.geminiEnabled && cfg.geminiEnvOn then
        let gem := analyzeTextClaim parse cfg.geminiEnabled fb
        let conf := gem.confidence.getD 0
        if cfg.confThreshold ≤ conf then
          let verdict := gem.verdict.getD "unverified"
          let matched : MatchedFC :=
            ⟨none, pyTake text 200, verdict, gem.explanation.getD "",
              "Gemini AI", none⟩
          if cfg.learnThreshold ≤ conf ∧ verdict ≠ "unverified" then
            let newRec : FactCheckRec :=
              ⟨newId, pyTake text 500, verdict, gem.explanation.getD "",
                "Gemini AI", none, none, none, nowTime, detected, none,
                some (encode text), "gemini", some conf, true,
                some []⟩
            if persistOk then
              let matched2 := { matched with id := some newId }
              { verdict := verdict, confidence := conf, language := detected,
                responseText :=
                  formatFactCheckResponse vr matched2 detected conf,
                matched := some matched2, analysisSource := "gemini",
                geminiCalled := true, tier1Matches := matchList,
                inserted := [newRec], writebackFailed := false }
            else
              { verdict := verdict, confidence := conf, language := detected,
                responseText :=
                  formatFactCheckResponse vr matched detected conf,
                matched := some matched, analysisSource := "gemini",
                geminiCalled := true, tier1Matches := matchList,
                inserted := [], writebackFailed := true }
          else
            { verdict := verdict, confidence := conf, language := detected,
              responseText :=
                formatFactCheckResponse vr matched detected conf,
              matched := some matched, analysisSource := "gemini",
              geminiCalled := true, tier1Matches := matchList,
              inserted := [], writebackFailed := false }
        else
          { verdict := "unverified", confidence := 0, language := detected,
            responseText := vr "unverified" detected none none none,
            matched := none, analysisSource := "database",
            geminiCalled := true, tier1Matches := matchList, inserted := [],
            writebackFailed := false }
      else
        { verdict := "unverified", confidence := 0, language := detected,
          responseText := vr "unverified" detected none none none,
          matched := none, analysisSource := "database",
          geminiCalled := false, tier1Matches := matchList, inserted := [],
          writebackFailed := false }

/-! ### Scraped-batch ingestion: `save_fact_checks_to_db`

The function walks the batch; for each scraped dict it queries the stored
corpus for a record with the same `source_url` (with SQLAlchemy autoflush,
rows added earlier in the same batch are visible to this query) and skips the
dict when one exists, otherwise it adds a new `FactCheck` row.  The final
`session.commit()` is wrapped in a try/except that rolls everything back and
reports zero saved on failure. -/

/-- The fields of a scraped fact-check dict handed to
`save_fact_checks_to_db`, with the `.get` defaults of run_all_scrapers.py
lines 43-58 already applied. -/
structure ScrapedItem where
  claim : String
  verdict : String
  explanation : String
  source : String
  source_url : Option String
  original_url : Option String
  published_date : Option Nat
  language : String
  keywords : Option String
  embedding : Option (List ℚ)
  source_type : String
  confidence_score : Option ℚ
  gemini_generated : Bool
  red_flags : Option (List String)
deriving Repr, DecidableEq

/-- The `FactCheck` row built from a scraped dict (run_all_scrapers.py lines
43-59); `id` models the autoincrement key and `nowTime` is
`datetime.utcnow()`. -/
def toFactCheckRec (nowTime : Nat) (id : Nat) (fc : ScrapedItem) :
    FactCheckRec :=
  ⟨id, fc.claim, fc.verdict, fc.explanation, fc.source, fc.source_url,
    fc.original_url, fc.published_date, nowTime, fc.language, fc.keywords,
    fc.embedding, fc.source_type, fc.confidence_score, fc.gemini_generated,
    fc.red_flags⟩

/-- One iteration of the save loop: skip when a record with the same
`source_url` is already visible, otherwise append the new row and count it. -/
def saveStep (nowTime : Nat) (acc : List FactCheckRec × Nat)
    (fc : ScrapedItem) : List FactCheckRec × Nat :=
  if acc.1.any fun r => r.source_url == fc.source_url then acc
  else (acc.1 ++ [toFactCheckRec nowTime acc.1.length fc], acc.2 + 1)

/-- Embeds `save_fact_checks_to_db` (run_all_scrapers.py lines 25-77):
fold the batch over the stored corpus, then commit; on commit failure the
rollback restores the original corpus and the function reports zero. -/
def saveFactChecksToDb (nowTime : Nat) (stored : List FactCheckRec)
    (batch : List ScrapedItem) (commitOk : Bool) :
    List FactCheckRec × Nat :=
  let res := batch.foldl (saveStep nowTime) (stored, 0)
  if commitOk then res else (stored, 0)

/-! ### Claim theorems -/

/-- A sample scraped record used by concrete counterexamples. -/
def mkRec (id : Nat) (claim verdict lang : String) (date : Nat)
    (emb : Option (List ℚ)) : FactCheckRec :=
  ⟨id, claim, verdict, "", "AltNews", some "https://example.org/a", none,
    none, date, lang, none, emb, "scraped", none, false, none⟩

/-- A behaviour where the first configured model returns a safety-blocked
response and the second returns a usable response. -/
def behaveBlockedThenOk : String → AttemptOutcome :=
  fun m => if m = "gemini-2.5-pro" then .blocked else .ok "resp"

/-- Python-style blank test: true when every code point of the text is
whitespace, in particular on the empty string. -/
def isBlank (s : String) : Bool := s.data.all Char.isWhitespace

/-- A response generator stub returning the empty string. -/
def vrNull : String → String → Option String → Option String → Option ℚ →
    String := fun _ _ _ _ _ => ""

/-- A language detector that always reports English (what `langdetect`
falls back to on undetectable input such as blank text). -/
def detEn : String → String := fun _ => "en"

/-- A parser stub rejecting every payload. -/
def parseNone : String → Option ParsedGemini := fun _ => none

/-- A similarity stub scoring every pair at zero. -/
def simZero : String → String → ℚ := fun _ _ => 0

/-- An encoder stub returning the empty vector. -/
def encNull : String → List ℚ := fun _ => []

/-- A 501-character query text; its writeback stores the claim truncated to
500 characters (app.py line 204). -/
def tLong : String := String.mk (List.replicate 501 'a')

/-- A concrete instantiation of the sentence encoder: the embedding records
the text length. -/
def encLen : String → List ℚ := fun s => [(s.data.length : ℚ)]

/-- A concrete cosine similarity: 1 on identical vectors, 0 otherwise — a
legitimate kernel, with self-similarity 1. -/
def cosEq : List ℚ → List ℚ → ℚ := fun u v => if u = v then 1 else 0

/-- The text-level similarity induced by `encLen` and `cosEq`: the same
composite the analyzer computes by re-encoding both texts, so the match path
and the embedding path are mutually consistent. -/
def simLen : String → String → ℚ := fun x y => cosEq (encLen x) (encLen y)

/-- A parser that decodes every Gemini payload into a high-confidence
`false` verdict (confidence 0.95, above both gates). -/
def parseHigh : String → Option ParsedGemini :=
  fun _ => some ⟨some "false", some (19 / 20), some "ai explanation", none⟩

/-- A Gemini call that produced a usable response on the first model. -/
def fbOk : FallbackResult := .success "resp" "gemini-2.5-pro"

/-- The record the learning writeback persists for the query `tLong` under
`parseHigh`, for a given database id. -/
def writebackRec (newId : Nat) : FactCheckRec :=
  ⟨newId, pyTake tLong 500, "false", "ai explanation", "Gemini AI", none,
    none, none, 0, "en", none, some (encLen tLong), "gemini",
    some (19 / 20), true, some []⟩

/-! ### Theorems -/

/-! Basic facts about the stable sort. -/

theorem insertByScore_perm (x : FactCheckRec × ℚ) (l : List (FactCheckRec × ℚ)) :
    List.Perm (insertByScore x l) (x :: l) := by
  induction l with
  | nil => simp [insertByScore]
  | cons y ys ih =>
      by_cases h : y.2 ≤ x.2
      · simp [insertByScore, h]
      · simp only [insertByScore, if_neg h]
        exact ((ih.cons y).trans (List.Perm.swap x y ys))

theorem sortByScoreDesc_perm (l : List (FactCheckRec × ℚ)) :
    List.Perm (sortByScoreDesc l) l := by
  induction l with
  | nil => simp [sortByScoreDesc]
  | cons x xs ih =>
      simp only [sortByScoreDesc, List.foldr_cons]
      exact (insertByScore_perm x _).trans (ih.cons x)

theorem insertByScore_pairwise (x : FactCheckRec × ℚ)
    (l : List (FactCheckRec × ℚ))
    (h : l.Pairwise fun a b => b.2 ≤ a.2) :
    (insertByScore x l).Pairwise fun a b => b.2 ≤ a.2 := by
  induction l with
  | nil => simp [insertByScore]
  | cons y ys ih =>
      rcases List.pairwise_cons.mp h with ⟨hy, hys⟩
      by_cases hle : y.2 ≤ x.2
      · rw [insertByScore, if_pos hle]
        refine List.pairwise_cons.mpr ⟨?_, h⟩
        intro b hb
        rcases List.mem_cons.mp hb with rfl | hb
        · exact hle
        · exact le_trans (hy _ hb) hle
      · rw [insertByScore, if_neg hle]
        refine List.pairwise_cons.mpr ⟨?_, ih hys⟩
        intro b hb
        have hmem : b ∈ x :: ys := (insertByScore_perm x ys).mem_iff.mp hb
        rcases List.mem_cons.mp hmem with rfl | hb2
        · exact le_of_not_le hle
        · exact hy _ hb2

theorem sortByScoreDesc_pairwise (l : List (FactCheckRec × ℚ)) :
    (sortByScoreDesc l).Pairwise fun a b => b.2 ≤ a.2 := by
  induction l with
  | nil => simp [sortByScoreDesc]
  | cons x xs ih =>
      simp only [sortByScoreDesc, List.foldr_cons]
      exact insertByScore_pairwise x _ ih

theorem insertByScore_filter_eq (x : FactCheckRec × ℚ) (c : ℚ)
    (l : List (FactCheckRec × ℚ)) :
    (insertByScore x l).filter (fun p => p.2 = c) =
      (x :: l).filter (fun p => p.2 = c) := by
  induction l with
  | nil => simp [insertByScore]
  | cons y ys ih =>
      by_cases hle : y.2 ≤ x.2
      · simp [insertByScore, hle]
      · have hxc : x.2 = c → y.2 = c → False := by
          intro hx hy
          exact hle (by rw [hx, hy])
        simp only [insertByScore, if_neg hle, List.filter_cons]
        by_cases hy : y.2 = c
        · have hx : ¬ x.2 = c := fun hx => hxc hx hy
          simp [hy, hx, ih, List.filter_cons]
        · simp only [decide_eq_true_eq, if_neg hy, ih, List.filter_cons]

theorem sortByScoreDesc_filter_eq (c : ℚ) (l : List (FactCheckRec × ℚ)) :
    (sortByScoreDesc l).filter (fun p => p.2 = c) =
      l.filter (fun p => p.2 = c) := by
  induction l with
  | nil => simp [sortByScoreDesc]
  | cons x xs ih =>
      simp only [sortByScoreDesc] at ih
      simp only [sortByScoreDesc, List.foldr_cons]
      rw [insertByScore_filter_eq]
      simp only [List.filter_cons]
      rw [ih]

theorem mem_scoredMatches {sim : String → String → ℚ} {threshold : ℚ}
    {queryText : String} {factChecks : List FactCheckRec}
    {fc : FactCheckRec} {s : ℚ} :
    (fc, s) ∈ scoredMatches sim threshold queryText factChecks ↔
      fc ∈ factChecks ∧ fc.claim ≠ "" ∧ s = sim queryText fc.claim ∧
        threshold ≤ s := by
  simp only [scoredMatches, List.mem_filterMap]
  constructor
  · rintro ⟨a, ha, hopt⟩
    by_cases hc : a.claim = ""
    · simp [hc] at hopt
    · simp only [if_neg hc] at hopt
      by_cases hs : threshold ≤ sim queryText a.claim
      · simp only [if_pos hs, Option.some.injEq, Prod.mk.injEq] at hopt
        obtain ⟨rfl, rfl⟩ := hopt
        exact ⟨ha, hc, rfl, hs⟩
      · simp [hs] at hopt
  · rintro ⟨hmem, hc, rfl, hs⟩
    exact ⟨fc, hmem, by simp [hc, hs]⟩

theorem mem_findMatchingClaims {sim : String → String → ℚ} {threshold : ℚ}
    {queryText : String} {factChecks : List FactCheckRec}
    {fc : FactCheckRec} {s : ℚ} :
    (fc, s) ∈ findMatchingClaims sim threshold queryText factChecks ↔
      fc ∈ factChecks ∧ fc.claim ≠ "" ∧ s = sim queryText fc.claim ∧
        threshold ≤ s := by
  rw [findMatchingClaims, (sortByScoreDesc_perm _).mem_iff]
  exact mem_scoredMatches

theorem findMatchingClaims_eq_nil_iff {sim : String → String → ℚ}
    {threshold : ℚ} {queryText : String} {factChecks : List FactCheckRec} :
    findMatchingClaims sim threshold queryText factChecks = [] ↔
      ∀ fc ∈ factChecks, fc.claim ≠ "" → sim queryText fc.claim < threshold := by
  constructor
  · intro h fc hmem hc
    by_contra hlt
    have hs : threshold ≤ sim queryText fc.claim := le_of_not_lt hlt
    have : (fc, sim queryText fc.claim) ∈
        findMatchingClaims sim threshold queryText factChecks :=
      mem_findMatchingClaims.mpr ⟨hmem, hc, rfl, hs⟩
    simp [h] at this
  · intro h
    rcases hn : findMatchingClaims sim threshold queryText factChecks with _ | ⟨m, rest⟩
    · rfl
    · exfalso
      have hm : (m.1, m.2) ∈ findMatchingClaims sim threshold queryText factChecks := by
        rw [hn]; simp
      rcases mem_findMatchingClaims.mp hm with ⟨hmem, hc, hs, hth⟩
      exact absurd (hs ▸ hth) (not_le.mpr (h _ hmem hc))

/-- C4, counterexample.  The claim states that the Similarity Index lookup
applies no similarity threshold itself.  On the code, a corpus record whose
similarity to the query is 1/2 — below the analyzer threshold 0.75 — is
dropped by `find_matching_claims` itself (text_analyzer.py line 162), so the
lookup returns no MatchResult at all for it. -/
theorem c4_counterexample :
    (fun _ _ => (1 : ℚ) / 2) "query" (mkRec 1 "some claim" "false" "en" 0 none).claim
        = 1 / 2 ∧
      findMatchingClaims (fun _ _ => (1 : ℚ) / 2) matchThresholdDefault "query"
        [mkRec 1 "some claim" "false" "en" 0 none] = [] := by
  refine ⟨rfl, ?_⟩
  simp only [findMatchingClaims, scoredMatches, matchThresholdDefault, mkRec,
    List.filterMap_cons, List.filterMap_nil]
  norm_num [sortByScoreDesc]

/-- C4, amended.  The Similarity Index lookup applies the analyzer's own
similarity threshold (default 0.75) itself: the returned MatchResults are
exactly the corpus records with a non-empty claim whose similarity score
reaches that threshold, paired with their scores. -/
theorem c4_lookup_applies_threshold (sim : String → String → ℚ)
    (threshold : ℚ) (queryText : String) (factChecks : List FactCheckRec)
    (fc : FactCheckRec) (s : ℚ) :
    ((fc, s) ∈ findMatchingClaims sim threshold queryText factChecks ↔
      fc ∈ factChecks ∧ fc.claim ≠ "" ∧ s = sim queryText fc.claim ∧
        threshold ≤ s) ∧
      matchThresholdDefault = 3 / 4 := by
  exact ⟨mem_findMatchingClaims, rfl⟩

/-- C5, counterexample.  The claim states that ties between equal similarity
scores are broken by the earlier creation timestamp.  On the code, with two
records of equal score where the record listed first has the later creation
timestamp, the stable Python sort keeps the input order, so the
later-created record stays first. -/
theorem c5_counterexample :
    findMatchingClaims (fun _ _ => (9 : ℚ) / 10) matchThresholdDefault "query"
        [mkRec 1 "claim a" "false" "en" 100 none,
          mkRec 2 "claim b" "true" "en" 50 none] =
      [(mkRec 1 "claim a" "false" "en" 100 none, 9 / 10),
        (mkRec 2 "claim b" "true" "en" 50 none, 9 / 10)] ∧
      (mkRec 2 "claim b" "true" "en" 50 none).scraped_date <
        (mkRec 1 "claim a" "false" "en" 100 none).scraped_date := by
  constructor
  · simp only [findMatchingClaims, scoredMatches, matchThresholdDefault,
      mkRec, List.filterMap_cons, List.filterMap_nil]
    rw [if_neg (by decide : ¬ ("claim a" : String) = ""),
      if_neg (by decide : ¬ ("claim b" : String) = "")]
    norm_num [sortByScoreDesc, insertByScore]
  · norm_num [mkRec]

/-- C5, amended.  The lookup result is ordered by similarity score
descending; ties between equal scores keep the relative order the records
have in the input corpus list (the Python sort is stable); the result is a
permutation of the qualifying scored records, hence deterministic.  No
timestamp is consulted. -/
theorem c5_sorted_and_stable (sim : String → String → ℚ) (threshold : ℚ)
    (queryText : String) (factChecks : List FactCheckRec) :
    (findMatchingClaims sim threshold queryText factChecks).Pairwise
        (fun a b => b.2 ≤ a.2) ∧
      (∀ c : ℚ,
        (findMatchingClaims sim threshold queryText factChecks).filter
            (fun p => p.2 = c) =
          (scoredMatches sim threshold queryText factChecks).filter
            (fun p => p.2 = c)) ∧
      List.Perm (findMatchingClaims sim threshold queryText factChecks)
        (scoredMatches sim threshold queryText factChecks) := by
  exact ⟨sortByScoreDesc_pairwise _, fun c => sortByScoreDesc_filter_eq c _,
    sortByScoreDesc_perm _⟩

theorem scanDup_eq_none_iff (cos : List ℚ → List ℚ → ℚ) (threshold : ℚ)
    (newEmb : List ℚ) (l : List FactCheckRec) :
    scanDup cos threshold newEmb l = none ↔
      ∀ fc ∈ l, ∀ x xs, fc.embedding = some (x :: xs) →
        cos newEmb (x :: xs) < threshold := by
  induction l with
  | nil => simp [scanDup]
  | cons fc rest ih =>
      rcases hemb : fc.embedding with _ | ⟨_ | ⟨x, xs⟩⟩
      · simp [scanDup, hemb, ih]
      · simp [scanDup, hemb, ih]
      · by_cases hs : threshold ≤ cos newEmb (x :: xs)
        · simp only [scanDup, hemb, if_pos hs]
          constructor
          · intro h; exact absurd h (by simp)
          · intro h
            exact absurd (h fc (by simp) x xs hemb) (not_lt.mpr hs)
        · simp only [scanDup, hemb, if_neg hs, ih, List.mem_cons]
          constructor
          · intro h fc2 hmem y ys hy
            rcases hmem with rfl | hmem
            · rw [hy] at hemb
              have h3 := Option.some.inj hemb
              injection h3 with h4 h5
              subst h4
              subst h5
              exact lt_of_not_le hs
            · exact h fc2 hmem y ys hy
          · intro h fc2 hmem y ys hy
            exact h fc2 (Or.inr hmem) y ys hy

theorem scanDup_eq_some (cos : List ℚ → List ℚ → ℚ) (threshold : ℚ)
    (newEmb : List ℚ) (l : List FactCheckRec) (d : DupInfo)
    (h : scanDup cos threshold newEmb l = some d) :
    ∃ pre fc post x xs, l = pre ++ fc :: post ∧
      fc.embedding = some (x :: xs) ∧
      threshold ≤ cos newEmb (x :: xs) ∧
      d = ⟨fc.id, fc.claim, cos newEmb (x :: xs), fc.source, fc.verdict⟩ ∧
      ∀ fc2 ∈ pre, ∀ y ys, fc2.embedding = some (y :: ys) →
        cos newEmb (y :: ys) < threshold := by
  induction l with
  | nil => simp [scanDup] at h
  | cons fc rest ih =>
      rcases hemb : fc.embedding with _ | ⟨_ | ⟨x, xs⟩⟩
      · rw [scanDup, hemb] at h
        obtain ⟨pre, fc2, post, y, ys, hsplit, he, hs, hd, hpre⟩ := ih h
        refine ⟨fc :: pre, fc2, post, y, ys, by rw [hsplit]; rfl, he, hs, hd, ?_⟩
        intro fc3 hmem y2 ys2 hy2
        rcases List.mem_cons.mp hmem with rfl | hmem
        · rw [hy2] at hemb; exact absurd hemb (by simp)
        · exact hpre fc3 hmem y2 ys2 hy2
      · rw [scanDup, hemb] at h
        obtain ⟨pre, fc2, post, y, ys, hsplit, he, hs, hd, hpre⟩ := ih h
        refine ⟨fc :: pre, fc2, post, y, ys, by rw [hsplit]; rfl, he, hs, hd, ?_⟩
        intro fc3 hmem y2 ys2 hy2
        rcases List.mem_cons.mp hmem with rfl | hmem
        · rw [hy2] at hemb
          exact absurd hemb (by simp)
        · exact hpre fc3 hmem y2 ys2 hy2
      · by_cases hs : threshold ≤ cos newEmb (x :: xs)
        · rw [scanDup, hemb] at h
          simp only [if_pos hs, Option.some.injEq] at h
          exact ⟨[], fc, rest, x, xs, rfl, hemb, hs, h.symm, by simp⟩
        · rw [scanDup, hemb] at h
          simp only [if_neg hs] at h
          obtain ⟨pre, fc2, post, y, ys, hsplit, he, hs2, hd, hpre⟩ := ih h
          refine ⟨fc :: pre, fc2, post, y, ys, by rw [hsplit]; rfl, he, hs2, hd, ?_⟩
          intro fc3 hmem y2 ys2 hy2
          rcases List.mem_cons.mp hmem with rfl | hmem
          · rw [hy2] at hemb
            have h3 := Option.some.inj hemb
            injection h3 with h4 h5
            subst h4
            subst h5
            exact lt_of_not_le hs
          · exact hpre fc3 hmem y2 ys2 hy2

/-- C6, confirmed.  The duplicate check embeds the candidate, walks the
existing records in order, and reports the *first* record carrying an
embedding whose cosine similarity reaches the dedup threshold, together with
that similarity; when no record with an embedding reaches the threshold the
outcome is unique (`none`).  The default dedup threshold is 0.85, strictly
stricter than the Decision Pipeline match threshold 0.75.  Records whose
stored embedding is absent or empty (Python-falsy) cannot be reported. -/
theorem c6_first_duplicate_or_unique (cos : List ℚ → List ℚ → ℚ)
    (encode : String → List ℚ) (threshold : ℚ) (newClaim : String)
    (existing : List FactCheckRec) :
    (isDuplicate cos encode threshold newClaim existing = none ↔
      ∀ fc ∈ existing, ∀ x xs, fc.embedding = some (x :: xs) →
        cos (encode newClaim) (x :: xs) < threshold) ∧
      (∀ d, isDuplicate cos encode threshold newClaim existing = some d →
        ∃ pre fc post x xs, existing = pre ++ fc :: post ∧
          fc.embedding = some (x :: xs) ∧
          threshold ≤ cos (encode newClaim) (x :: xs) ∧
          d = ⟨fc.id, fc.claim, cos (encode newClaim) (x :: xs), fc.source,
            fc.verdict⟩ ∧
          ∀ fc2 ∈ pre, ∀ y ys, fc2.embedding = some (y :: ys) →
            cos (encode newClaim) (y :: ys) < threshold) ∧
      dedupThresholdDefault = 85 / 100 ∧
      matchThresholdDefault < dedupThresholdDefault := by
  refine ⟨?_, ?_, rfl, by norm_num [matchThresholdDefault, dedupThresholdDefault]⟩
  · rcases existing with _ | ⟨fc, rest⟩
    · simp [isDuplicate]
    · rw [isDuplicate, if_neg (by simp)]
      exact scanDup_eq_none_iff cos threshold (encode newClaim) (fc :: rest)
  · intro d hd
    rcases existing with _ | ⟨fc, rest⟩
    · simp [isDuplicate] at hd
    · rw [isDuplicate, if_neg (by simp)] at hd
      exact scanDup_eq_some cos threshold (encode newClaim) (fc :: rest) d hd

/-- C6, witness: a concrete corpus where the single record scores below the
default dedup threshold, so the check reports unique. -/
theorem c6_witness :
    isDuplicate (fun _ _ => (1 : ℚ) / 2) (fun _ => [1]) dedupThresholdDefault
      "candidate claim" [mkRec 1 "old claim" "false" "en" 0 (some [1])] =
      none := by
  have h := (c6_first_duplicate_or_unique (fun _ _ => (1 : ℚ) / 2)
    (fun _ => [1]) dedupThresholdDefault "candidate claim"
    [mkRec 1 "old claim" "false" "en" 0 (some [1])]).1
  refine h.mpr ?_
  intro fc hmem x xs he
  norm_num [dedupThresholdDefault]

/-- C7, counterexample.  The claim states that any non-rate-limit failure
aborts the whole fallback immediately with no further models tried.  On the
code, a safety-blocked response — a failed attempt that is not classified as
a rate limit (no exception is even raised) — falls through to the next model
(the `continue` on gemini_analyzer.py line 78): with the first model blocked,
the second model is still tried and its response is returned. -/
theorem c7_counterexample :
    behaveBlockedThenOk "gemini-2.5-pro" = .blocked ∧
      generateWithFallback behaveBlockedThenOk geminiModels none =
        .success "resp" "gemini-2.0-flash" := by
  constructor
  · rfl
  · simp [generateWithFallback, behaveBlockedThenOk, geminiModels]

/-- C7, amended.  On an exception classified as a rate limit (message
containing 429, quota or rate) the fallback advances to the next model,
recording the error; on a safety-blocked (empty-candidates) response it also
advances to the next model; on any other exception it aborts the whole
fallback immediately, re-raising that exception with no further models
tried; a usable response returns with the model that produced it. -/
theorem c7_fallback_classification (behave : String → AttemptOutcome)
    (m : String) (rest : List String) (lastError : Option String) :
    (∀ msg, behave m = .exn msg → isRateLimitError msg = true →
        generateWithFallback behave (m :: rest) lastError =
          generateWithFallback behave rest (some msg)) ∧
      (∀ msg, behave m = .exn msg → isRateLimitError msg = false →
        generateWithFallback behave (m :: rest) lastError = .raised msg) ∧
      (behave m = .blocked →
        generateWithFallback behave (m :: rest) lastError =
          generateWithFallback behave rest lastError) ∧
      (∀ r, behave m = .ok r →
        generateWithFallback behave (m :: rest) lastError = .success r m) := by
  refine ⟨?_, ?_, ?_, ?_⟩
  · intro msg hb hrl
    rw [generateWithFallback, hb]
    simp [hrl]
  · intro msg hb hrl
    rw [generateWithFallback, hb]
    simp [hrl]
  · intro hb
    rw [generateWithFallback, hb]
  · intro r hb
    rw [generateWithFallback, hb]

/-- C7, witness: a non-rate-limit exception on the first model aborts at
once, and a rate-limited first model falls through to the second. -/
theorem c7_witness :
    generateWithFallback (fun _ => .exn "boom") geminiModels none =
        .raised "boom" ∧
      generateWithFallback
        (fun m => if m = "gemini-2.5-pro" then .exn "429 exhausted"
          else .ok "ok") geminiModels none = .success "ok" "gemini-2.0-flash" := by
  constructor
  · exact (c7_fallback_classification (fun _ => .exn "boom") "gemini-2.5-pro"
      ["gemini-2.0-flash"] none).2.1 "boom" rfl (by decide)
  · have h := (c7_fallback_classification
      (fun m => if m = "gemini-2.5-pro" then .exn "429 exhausted" else .ok "ok")
      "gemini-2.5-pro" ["gemini-2.0-flash"] none).1 "429 exhausted"
      (by decide) (by decide)
    rw [show geminiModels = "gemini-2.5-pro" :: ["gemini-2.0-flash"] from rfl, h]
    simp [generateWithFallback]

/-- C8, confirmed.  Whenever `_generate_with_fallback` produced a response
but the response cannot be decoded into the expected fields, the analyzer
returns the degraded dict of gemini_analyzer.py lines 168-175: verdict
unverified, confidence 0, an error marker, and the raw malformed payload
under `raw_response`; the function returns a value on every path instead of
raising, and the degraded confidence is below the default confidence gate,
so the pipeline can never treat it as a confident verdict. -/
theorem c8_malformed_degrades (parse : String → Option ParsedGemini)
    (resp modelUsed : String) (h : parse resp = none) :
    analyzeTextClaim parse true (.success resp modelUsed) =
        ⟨some "unverified", some 0,
          some "Could not analyze claim due to malformed AI response.", none,
          some "JSON parse error", none, some resp⟩ ∧
      (analyzeTextClaim parse true
          (.success resp modelUsed)).confidence.getD 0 < confThresholdDefault := by
  constructor
  · simp [analyzeTextClaim, h]
  · simp only [analyzeTextClaim, Bool.not_true, h]
    norm_num [confThresholdDefault]

/-- C8, witness: a parser that rejects every payload yields the degraded
dict carrying the raw response. -/
theorem c8_witness :
    analyzeTextClaim (fun _ => none) true (.success "not json" "gemini-2.5-pro") =
        ⟨some "unverified", some 0,
          some "Could not analyze claim due to malformed AI response.", none,
          some "JSON parse error", none, some "not json"⟩ ∧
      (analyzeTextClaim (fun _ => none) true
          (.success "not json" "gemini-2.5-pro")).confidence.getD 0 <
        confThresholdDefault :=
  c8_malformed_degrades (fun _ => none) "not json" "gemini-2.5-pro" rfl

theorem foldl_saveStep_inv (nowTime : Nat) (stored : List FactCheckRec)
    (batch : List ScrapedItem) (acc : List FactCheckRec × Nat)
    (hsub : ∀ r ∈ stored, r ∈ acc.1)
    (hprop : ∀ r ∈ acc.1, r ∈ stored ∨
      ∀ r0 ∈ stored, r0.source_url ≠ r.source_url) :
    (∀ r ∈ stored, r ∈ (batch.foldl (saveStep nowTime) acc).1) ∧
      ∀ r ∈ (batch.foldl (saveStep nowTime) acc).1, r ∈ stored ∨
        ∀ r0 ∈ stored, r0.source_url ≠ r.source_url := by
  induction batch generalizing acc with
  | nil => exact ⟨hsub, hprop⟩
  | cons fc rest ih =>
      simp only [List.foldl_cons]
      by_cases hany : acc.1.any fun r => r.source_url == fc.source_url
      · rw [saveStep, if_pos hany]
        exact ih acc hsub hprop
      · rw [saveStep, if_neg hany]
        refine ih _ (fun r hr => List.mem_append_left _ (hsub r hr)) ?_
        intro r hr
        rcases List.mem_append.mp hr with hr | hr
        · exact hprop r hr
        · rcases List.mem_singleton.mp hr with rfl
          right
          intro r0 hr0
          have hf := List.any_eq_false.mp (Bool.not_eq_true _ |>.mp hany)
            r0 (hsub r0 hr0)
          intro hurl
          rw [toFactCheckRec] at hurl
          exact absurd (beq_iff_eq.mpr hurl) (by simp [hf])

theorem foldl_saveStep_pairwise (nowTime : Nat)
    (batch : List ScrapedItem) (acc : List FactCheckRec × Nat)
    (hpw : acc.1.Pairwise fun a b => a.source_url ≠ b.source_url) :
    ((batch.foldl (saveStep nowTime) acc).1).Pairwise
      fun a b => a.source_url ≠ b.source_url := by
  induction batch generalizing acc with
  | nil => exact hpw
  | cons fc rest ih =>
      simp only [List.foldl_cons]
      by_cases hany : acc.1.any fun r => r.source_url == fc.source_url
      · rw [saveStep, if_pos hany]
        exact ih acc hpw
      · rw [saveStep, if_neg hany]
        refine ih _ ?_
        rw [List.pairwise_append]
        refine ⟨hpw, List.pairwise_singleton _ _, ?_⟩
        intro a ha b hb
        rcases List.mem_singleton.mp hb with rfl
        have hf := List.any_eq_false.mp (Bool.not_eq_true _ |>.mp hany) a ha
        intro hurl
        rw [toFactCheckRec] at hurl
        exact absurd (beq_iff_eq.mpr hurl) (by simp [hf])

/-- C10, confirmed.  Along the scraped-batch save path, a fact-check whose
`source_url` equals the `source_url` of a record already visible in the
store is skipped before insertion, with no reference to embeddings; hence
every record the save adds carries a `source_url` distinct from every
pre-existing one, and if the stored corpus had pairwise-distinct source URLs
before the batch it still has them after (whether the final commit succeeds
or is rolled back). -/
theorem c10_url_skip_invariant (nowTime : Nat) (stored : List FactCheckRec)
    (batch : List ScrapedItem) (commitOk : Bool) :
    ((stored.Pairwise fun a b => a.source_url ≠ b.source_url) →
        ((saveFactChecksToDb nowTime stored batch commitOk).1).Pairwise
          fun a b => a.source_url ≠ b.source_url) ∧
      ∀ r ∈ (saveFactChecksToDb nowTime stored batch commitOk).1,
        r ∈ stored ∨ ∀ r0 ∈ stored, r0.source_url ≠ r.source_url := by
  rcases commitOk with _ | _
  · constructor
    · intro h
      simpa [saveFactChecksToDb] using h
    · intro r hr
      rw [saveFactChecksToDb] at hr
      simp only [Bool.false_eq_true, if_neg] at hr
      exact Or.inl (by simpa using hr)
  · constructor
    · intro h
      rw [saveFactChecksToDb]
      simp only [if_pos rfl]
      exact foldl_saveStep_pairwise nowTime batch (stored, 0) h
    · intro r hr
      rw [saveFactChecksToDb] at hr
      simp only [if_pos rfl] at hr
      exact (foldl_saveStep_inv nowTime stored batch (stored, 0)
        (fun r hr => hr) (fun r hr => Or.inl hr)).2 r hr

/-- C10, witness: a batch repeating a stored source URL adds nothing for
that item, and the distinct-URL invariant is preserved on a concrete run. -/
theorem c10_witness :
    ((saveFactChecksToDb 7
        [mkRec 1 "stored claim" "false" "en" 0 none]
        [⟨"new claim", "true", "", "PIB Fact Check", some "https://example.org/a",
          none, none, "en", none, none, "scraped", none, false, none⟩]
        true).1).Pairwise
      (fun a b => a.source_url ≠ b.source_url) :=
  (c10_url_skip_invariant 7 [mkRec 1 "stored claim" "false" "en" 0 none]
    [⟨"new claim", "true", "", "PIB Fact Check", some "https://example.org/a",
      none, none, "en", none, none, "scraped", none, false, none⟩] true).1
    (by simp)

theorem analyzeTextEndpoint_match_eq (sim : String → String → ℚ)
    (encode : String → List ℚ) (detectLang : String → String)
    (vr : String → String → Option String → Option String → Option ℚ → String)
    (parse : String → Option ParsedGemini) (fb : FallbackResult)
    (cfg : PipelineCfg) (corpus : List FactCheckRec) (persistOk : Bool)
    (newId : Nat) (nowTime : Nat) (text : String)
    (m : FactCheckRec × ℚ) (rest : List (FactCheckRec × ℚ))
    (h : findMatchingClaims sim cfg.matchThreshold text
      (languageCorpus (detectLang text) corpus) = m :: rest) :
    analyzeTextEndpoint sim encode detectLang vr parse fb cfg corpus
        persistOk newId nowTime text =
      { verdict := m.1.verdict, confidence := m.2,
        language := detectLang text,
        responseText :=
          formatFactCheckResponse vr (toMatched m.1) (detectLang text) m.2,
        matched := some (toMatched m.1), analysisSource := "database",
        geminiCalled := false, tier1Matches := m :: rest, inserted := [],
        writebackFailed := false } := by
  simp only [analyzeTextEndpoint, h]

/-- C2, confirmed.  When some record of the language-filtered corpus has a
non-empty claim and similarity at or above the configured match threshold,
the route resolves from the database tier: the Gemini fallback is never
entered, nothing is written back, and the returned verdict and confidence
are the verdict of a best-scoring matched record and its similarity score
(the first match of the descending-sorted list, which bounds every other
qualifying score). -/
theorem c2_indexed_match_resolution (sim : String → String → ℚ)
    (encode : String → List ℚ) (detectLang : String → String)
    (vr : String → String → Option String → Option String → Option ℚ → String)
    (parse : String → Option ParsedGemini) (fb : FallbackResult)
    (cfg : PipelineCfg) (corpus : List FactCheckRec) (persistOk : Bool)
    (newId : Nat) (nowTime : Nat) (text : String)
    (h : ∃ fc ∈ languageCorpus (detectLang text) corpus,
      fc.claim ≠ "" ∧ cfg.matchThreshold ≤ sim text fc.claim) :
    (analyzeTextEndpoint sim encode detectLang vr parse fb cfg corpus
          persistOk newId nowTime text).analysisSource = "database" ∧
      (analyzeTextEndpoint sim encode detectLang vr parse fb cfg corpus
          persistOk newId nowTime text).geminiCalled = false ∧
      (analyzeTextEndpoint sim encode detectLang vr parse fb cfg corpus
          persistOk newId nowTime text).inserted = [] ∧
      ∃ m ∈ languageCorpus (detectLang text) corpus, m.claim ≠ "" ∧
        (analyzeTextEndpoint sim encode detectLang vr parse fb cfg corpus
            persistOk newId nowTime text).verdict = m.verdict ∧
        (analyzeTextEndpoint sim encode detectLang vr parse fb cfg corpus
            persistOk newId nowTime text).confidence = sim text m.claim ∧
        cfg.matchThreshold ≤
          (analyzeTextEndpoint sim encode detectLang vr parse fb cfg corpus
            persistOk newId nowTime text).confidence ∧
        ∀ fc ∈ languageCorpus (detectLang text) corpus, fc.claim ≠ "" →
          sim text fc.claim ≤
            (analyzeTextEndpoint sim encode detectLang vr parse fb cfg corpus
              persistOk newId nowTime text).confidence := by
  obtain ⟨fc0, hfc0, hc0, hth0⟩ := h
  rcases hcons : findMatchingClaims sim cfg.matchThreshold text
      (languageCorpus (detectLang text) corpus) with _ | ⟨⟨mr, ms⟩, rest⟩
  · exact absurd hth0 (not_le.mpr
      (findMatchingClaims_eq_nil_iff.mp hcons fc0 hfc0 hc0))
  · have hend := analyzeTextEndpoint_match_eq sim encode detectLang vr parse
      fb cfg corpus persistOk newId nowTime text (mr, ms) rest hcons
    have hmem : (mr, ms) ∈ findMatchingClaims sim cfg.matchThreshold text
        (languageCorpus (detectLang text) corpus) := by
      rw [hcons]; exact List.mem_cons_self _ _
    obtain ⟨hmr, hmrc, hms, hmth⟩ := mem_findMatchingClaims.mp hmem
    have hpw : (findMatchingClaims sim cfg.matchThreshold text
        (languageCorpus (detectLang text) corpus)).Pairwise
        (fun a b => b.2 ≤ a.2) := sortByScoreDesc_pairwise _
    rw [hcons] at hpw
    have hrest := (List.pairwise_cons.mp hpw).1
    rw [hend]
    refine ⟨rfl, rfl, rfl, mr, hmr, hmrc, rfl, hms, hms ▸ hmth, ?_⟩
    intro fc hfc hfcne
    by_cases hq : cfg.matchThreshold ≤ sim text fc.claim
    · have hmem2 : (fc, sim text fc.claim) ∈
          findMatchingClaims sim cfg.matchThreshold text
            (languageCorpus (detectLang text) corpus) :=
        mem_findMatchingClaims.mpr ⟨hfc, hfcne, rfl, hq⟩
      rw [hcons] at hmem2
      rcases List.mem_cons.mp hmem2 with heq | hmem2
      · have : sim text fc.claim = ms := congrArg Prod.snd heq
        exact le_of_eq this
      · exact hrest _ hmem2
    · exact le_trans (not_le.mp hq).le (hms ▸ hmth)

/-- C2, witness: a one-record corpus whose similarity 0.8 exceeds the
default 0.75 threshold resolves from the database with the Gemini tier
never invoked. -/
theorem c2_witness :
    (analyzeTextEndpoint (fun _ _ => (4 : ℚ) / 5) (fun _ => [])
        (fun _ => "en") (fun _ _ _ _ _ => "") (fun _ => none) (.raised "err")
        defaultCfg [mkRec 1 "stored claim" "false" "en" 0 none] true 1 0
        "query text").analysisSource = "database" ∧
      (analyzeTextEndpoint (fun _ _ => (4 : ℚ) / 5) (fun _ => [])
        (fun _ => "en") (fun _ _ _ _ _ => "") (fun _ => none) (.raised "err")
        defaultCfg [mkRec 1 "stored claim" "false" "en" 0 none] true 1 0
        "query text").geminiCalled = false := by
  have h := c2_indexed_match_resolution (fun _ _ => (4 : ℚ) / 5) (fun _ => [])
    (fun _ => "en") (fun _ _ _ _ _ => "") (fun _ => none) (.raised "err")
    defaultCfg [mkRec 1 "stored claim" "false" "en" 0 none] true 1 0
    "query text"
    ⟨mkRec 1 "stored claim" "false" "en" 0 none,
      by simp [languageCorpus, mkRec],
      by simp [mkRec],
      by norm_num [defaultCfg, matchThresholdDefault]⟩
  exact ⟨h.1, h.2.1⟩

/-- C3, counterexample.  The claim states that an empty or whitespace-only
query short-circuits to `abstained` without invoking either tier.  On the
code, `analyze_text` has no blank-input guard (only a missing-field check):
with the empty query, an empty corpus and Gemini enabled, the Reasoner
fallback is invoked — `geminiCalled` is true. -/
theorem c3_counterexample :
    isBlank "" = true ∧
      (analyzeTextEndpoint simZero encNull detEn vrNull parseNone
          (.raised "err") defaultCfg [] true 1 0 "").geminiCalled = true := by
  constructor
  · rfl
  · simp only [analyzeTextEndpoint, languageCorpus, findMatchingClaims,
      scoredMatches, sortByScoreDesc, List.filter_nil, List.filterMap_nil,
      List.foldr_nil, defaultCfg, analyzeTextClaim, parseNone, detEn]
    norm_num [confThresholdDefault]

/-- C3, amended.  An empty or whitespace-only query text is not
short-circuited: it flows through the pipeline like any other text — the
local-match tier is consulted (the tier-1 match list of the outcome is
exactly the Similarity Index lookup on the blank text), and when that lookup
is empty and Gemini is enabled the Reasoner tier is invoked. -/
theorem c3_no_short_circuit (sim : String → String → ℚ)
    (encode : String → List ℚ) (detectLang : String → String)
    (vr : String → String → Option String → Option String → Option ℚ → String)
    (parse : String → Option ParsedGemini) (fb : FallbackResult)
    (cfg : PipelineCfg) (corpus : List FactCheckRec) (persistOk : Bool)
    (newId : Nat) (nowTime : Nat) (text : String)
    (hblank : isBlank text = true)
    (hnm : findMatchingClaims sim cfg.matchThreshold text
      (languageCorpus (detectLang text) corpus) = [])
    (hen : cfg.geminiEnabled = true) (henv : cfg.geminiEnvOn = true) :
    (analyzeTextEndpoint sim encode detectLang vr parse fb cfg corpus
        persistOk newId nowTime text).tier1Matches =
      findMatchingClaims sim cfg.matchThreshold text
        (languageCorpus (detectLang text) corpus) ∧
      (analyzeTextEndpoint sim encode detectLang vr parse fb cfg corpus
        persistOk newId nowTime text).geminiCalled = true := by
  simp only [analyzeTextEndpoint, hnm, hen, henv, Bool.and_self, if_true]
  split_ifs <;> simp

/-- C3, witness: the whitespace-only query with an empty corpus and the
default configuration invokes the Reasoner tier. -/
theorem c3_witness :
    (analyzeTextEndpoint simZero encNull detEn vrNull parseNone
        (.raised "err") defaultCfg [] true 1 0 " ").geminiCalled = true :=
  (c3_no_short_circuit simZero encNull detEn vrNull parseNone (.raised "err")
    defaultCfg [] true 1 0 " " (by decide) rfl rfl rfl).2

/-- C9, confirmed.  The writeback insert and commit sit inside a try/except
whose handler only logs and rolls back (app.py lines 229-231), and the
response is built from fields the handler never touches: across a run where
persistence fails and the same run where it succeeds, the returned verdict,
confidence, language, response text, matched-claim verdict and explanation,
analysis source and Reasoner-invocation flag are identical; on the failing
run nothing is persisted.  The only divergence is the `id` key the success
path copies back into `matched_fact_check`, which the response text never
reads. -/
theorem c9_persist_failure_frame (sim : String → String → ℚ)
    (encode : String → List ℚ) (detectLang : String → String)
    (vr : String → String → Option String → Option String → Option ℚ → String)
    (parse : String → Option ParsedGemini) (fb : FallbackResult)
    (cfg : PipelineCfg) (corpus : List FactCheckRec)
    (newId : Nat) (nowTime : Nat) (text : String) :
    (analyzeTextEndpoint sim encode detectLang vr parse fb cfg corpus false
        newId nowTime text).verdict =
      (analyzeTextEndpoint sim encode detectLang vr parse fb cfg corpus true
        newId nowTime text).verdict ∧
    (analyzeTextEndpoint sim encode detectLang vr parse fb cfg corpus false
        newId nowTime text).confidence =
      (analyzeTextEndpoint sim encode detectLang vr parse fb cfg corpus true
        newId nowTime text).confidence ∧
    (analyzeTextEndpoint sim encode detectLang vr parse fb cfg corpus false
        newId nowTime text).language =
      (analyzeTextEndpoint sim encode detectLang vr parse fb cfg corpus true
        newId nowTime text).language ∧
    (analyzeTextEndpoint sim encode detectLang vr parse fb cfg corpus false
        newId nowTime text).responseText =
      (analyzeTextEndpoint sim encode detectLang vr parse fb cfg corpus true
        newId nowTime text).responseText ∧
    ((analyzeTextEndpoint sim encode detectLang vr parse fb cfg corpus false
        newId nowTime text).matched.map fun m => m.verdict) =
      ((analyzeTextEndpoint sim encode detectLang vr parse fb cfg corpus true
        newId nowTime text).matched.map fun m => m.verdict) ∧
    ((analyzeTextEndpoint sim encode detectLang vr parse fb cfg corpus false
        newId nowTime text).matched.map fun m => m.explanation) =
      ((analyzeTextEndpoint sim encode detectLang vr parse fb cfg corpus true
        newId nowTime text).matched.map fun m => m.explanation) ∧
    (analyzeTextEndpoint sim encode detectLang vr parse fb cfg corpus false
        newId nowTime text).analysisSource =
      (analyzeTextEndpoint sim encode detectLang vr parse fb cfg corpus true
        newId nowTime text).analysisSource ∧
    (analyzeTextEndpoint sim encode detectLang vr parse fb cfg corpus false
        newId nowTime text).geminiCalled =
      (analyzeTextEndpoint sim encode detectLang vr parse fb cfg corpus true
        newId nowTime text).geminiCalled ∧
    (analyzeTextEndpoint sim encode detectLang vr parse fb cfg corpus false
        newId nowTime text).inserted = [] := by
  rcases hcons : findMatchingClaims sim cfg.matchThreshold text
      (languageCorpus (detectLang text) corpus) with _ | ⟨m, rest⟩
  · simp only [analyzeTextEndpoint, hcons]
    split_ifs <;> simp_all [formatFactCheckResponse]
  · rw [analyzeTextEndpoint_match_eq sim encode detectLang vr parse fb cfg
        corpus false newId nowTime text m rest hcons,
      analyzeTextEndpoint_match_eq sim encode detectLang vr parse fb cfg
        corpus true newId nowTime text m rest hcons]
    simp

theorem encLen_tLong : encLen tLong = [(501 : ℚ)] := by
  simp [encLen, tLong]

theorem pyTake_tLong : pyTake tLong 500 = String.mk (List.replicate 500 'a') := by
  simp only [pyTake, tLong, List.take_replicate]
  norm_num

theorem encLen_pyTake_tLong : encLen (pyTake tLong 500) = [(500 : ℚ)] := by
  rw [pyTake_tLong]
  simp [encLen]

theorem simLen_tLong_trunc : simLen tLong (pyTake tLong 500) = 0 := by
  rw [simLen, encLen_tLong, encLen_pyTake_tLong, cosEq]
  norm_num

theorem pyTake_tLong_ne_empty : ¬ pyTake tLong 500 = "" := by
  rw [pyTake_tLong]
  intro h
  have h2 := congrArg String.data h
  simp at h2

theorem c1_no_rematch :
    findMatchingClaims simLen matchThresholdDefault tLong
      (languageCorpus (detEn tLong) [writebackRec 1]) = [] := by
  rw [findMatchingClaims_eq_nil_iff]
  intro fc hfc hne
  rw [languageCorpus] at hfc
  rcases List.mem_filter.mp hfc with ⟨hmem, hpred⟩
  rcases List.mem_singleton.mp hmem with rfl
  rw [show (writebackRec 1).claim = pyTake tLong 500 from rfl, simLen_tLong_trunc]
  norm_num [matchThresholdDefault]

theorem c1_run_inserts (corpus : List FactCheckRec) (newId : Nat)
    (hm : findMatchingClaims simLen matchThresholdDefault tLong
      (languageCorpus (detEn tLong) corpus) = []) :
    (analyzeTextEndpoint simLen encLen detEn vrNull parseHigh fbOk defaultCfg
        corpus true newId 0 tLong).inserted = [writebackRec newId] := by
  have hconf : confThresholdDefault ≤ ((19 : ℚ) / 20) := by
    norm_num [confThresholdDefault]
  have hlearn : learnThresholdDefault ≤ ((19 : ℚ) / 20) := by
    norm_num [learnThresholdDefault]
  simp only [detEn] at hm
  simp [analyzeTextEndpoint, defaultCfg, hm, analyzeTextClaim, parseHigh,
    fbOk, hconf, hlearn, writebackRec, detEn]

/-- C1, code bug.  The spec (and the in-code comment on app.py line 199,
which announces a similar-claim check) require the learning writeback to
submit the candidate through the Deduplication Engine before persisting; the
code computes the embedding and persists unconditionally — `Deduplicator` is
never consulted on this path.  Concretely: resolving the same 501-character
query twice stores, both times, a record whose claim is the 500-character
truncation and whose embedding is that of the full text; the second
resolution does not match tier 1 (the truncated stored claim scores 0
against the query, below 0.75), yet the stored embeddings of the two
inserted records are identical, with cosine similarity 1 ≥ 0.85, exactly
what a dedup check would have caught. -/
theorem c1_writeback_skips_dedup :
    (analyzeTextEndpoint simLen encLen detEn vrNull parseHigh fbOk defaultCfg
        [] true 1 0 tLong).inserted = [writebackRec 1] ∧
      (analyzeTextEndpoint simLen encLen detEn vrNull parseHigh fbOk
          defaultCfg [writebackRec 1] true 2 0 tLong).inserted =
        [writebackRec 2] ∧
      (writebackRec 1).embedding = some (encLen tLong) ∧
      (writebackRec 2).embedding = some (encLen tLong) ∧
      cosEq (encLen tLong) (encLen tLong) = 1 ∧
      dedupThresholdDefault ≤ cosEq (encLen tLong) (encLen tLong) ∧
      writebackRec 1 ≠ writebackRec 2 := by
  refine ⟨c1_run_inserts [] 1 rfl, c1_run_inserts [writebackRec 1] 2
    c1_no_rematch, rfl, rfl, ?_, ?_, ?_⟩
  · simp [cosEq]
  · simp [cosEq]
    norm_num [dedupThresholdDefault]
  · intro h
    have h2 := congrArg FactCheckRec.id h
    simp [writebackRec] at h2
